import Mathlib

/-!
Verification of the `homework_bot` polling bot (`homework.py`, `exceptions.py`)
against its natural-language specification.

The Python program is shallowly embedded: Python runtime values become the
inductive type `PyVal`, Python exceptions become `PyExc`, fallible code returns
`Except PyExc _`, and the poll loop becomes an explicit state-transition
function on `PollState`.  Each source function keeps its Python name
(`check_tokens`, `get_api_answer`, `check_response`, `parse_status`,
`send_message`), and the body of `main`'s `while True:` loop is `runIteration`.
-/

/-- Python exception values raised (or returned) by the program.  The builtin
classes (`TypeError`, `KeyError`, `AttributeError`, `IndexError`,
`SystemError`) and the custom classes from `exceptions.py` (`StatusCodeError`,
`AccessError`, `EndpointError`), as well as the library exceptions
(`requests.exceptions.ConnectionError`, `json.decoder.JSONDecodeError`,
`telegram.error.TelegramError`), all derive from Python's `Exception`. -/
inductive PyExc where
  | endpointError (statusCode : Nat)
  | systemError (msg : String)
  | jsonDecodeError (msg : String)
  | connectionError (msg : String)
  | accessError (msg : String)
  | typeError (msg : String)
  | keyError (key : String)
  | attributeError (msg : String)
  | indexError (msg : String)
  | statusCodeError (msg : String)
  | telegramError (msg : String)
  | valueError (msg : String)
  deriving Repr, DecidableEq

/-- Python runtime values as they occur in this program: JSON-decoded API
responses (strings, integers, `None`, lists, dicts) plus exception objects,
which `get_api_answer` can return as ordinary values. Dicts are modelled as
association lists (first binding of a key wins). -/
inductive PyVal where
  | str (s : String)
  | int (n : Int)
  | pynone
  | exc (e : PyExc)
  | list (xs : List PyVal)
  | dict (entries : List (String × PyVal))
  deriving Repr

mutual

/-- Python `==` / `!=` on the modelled values.  Values of different types
compare unequal (no `__eq__` overloading occurs in the program); dicts are
modelled as canonical ordered association lists, so dict equality is
entrywise. -/
def pyEq : PyVal → PyVal → Bool
  | .str a, .str b => a == b
  | .int a, .int b => a == b
  | .pynone, .pynone => true
  | .exc a, .exc b => a == b
  | .list xs, .list ys => pyEqList xs ys
  | .dict xs, .dict ys => pyEqDict xs ys
  | _, _ => false

def pyEqList : List PyVal → List PyVal → Bool
  | [], [] => true
  | x :: xs, y :: ys => pyEq x y && pyEqList xs ys
  | _, _ => false

def pyEqDict : List (String × PyVal) → List (String × PyVal) → Bool
  | [], [] => true
  | (k, v) :: xs, (l, w) :: ys => k == l && pyEq v w && pyEqDict xs ys
  | _, _ => false

end

mutual

/-- Python `repr()` restricted to the modelled values (string escaping inside
`repr` of a string is not modelled; no claim depends on it). -/
def pyRepr : PyVal → String
  | .str s => "'" ++ s ++ "'"
  | .int n => toString n
  | .pynone => "None"
  | .exc _ => "Exception(...)"
  | .list xs => "[" ++ pyReprList xs ++ "]"
  | .dict es => "\x7b" ++ pyReprDict es ++ "\x7d"

def pyReprList : List PyVal → String
  | [] => ""
  | [x] => pyRepr x
  | x :: xs => pyRepr x ++ ", " ++ pyReprList xs

def pyReprDict : List (String × PyVal) → String
  | [] => ""
  | [(k, v)] => "'" ++ k ++ "': " ++ pyRepr v
  | (k, v) :: es => "'" ++ k ++ "': " ++ pyRepr v ++ ", " ++ pyReprDict es

end

/-- Python `str()` as used by the f-strings of the program. -/
def pyStrOf : PyVal → String
  | .str s => s
  | .int n => toString n
  | .pynone => "None"
  | .exc e =>
      match e with
      | .endpointError code => toString code
      | .systemError m => m
      | .jsonDecodeError m => m
      | .connectionError m => m
      | .accessError m => m
      | .typeError m => m
      -- `str(KeyError(k))` is the repr of the key, i.e. the key in quotes.
      | .keyError k => "'" ++ k ++ "'"
      | .attributeError m => m
      | .indexError m => m
      | .statusCodeError m => m
      | .telegramError m => m
      | .valueError m => m
  | .list xs => pyRepr (.list xs)
  | .dict es => pyRepr (.dict es)

/-- `str()` of an exception (what `{error}` interpolates in the f-strings). -/
def PyExc.text (e : PyExc) : String := pyStrOf (.exc e)

/-- Association-list lookup backing Python dict access. -/
def lookupDict : List (String × PyVal) → String → Option PyVal
  | [], _ => Option.none
  | (k, v) :: rest, key => if k = key then some v else lookupDict rest key

/-- Python `x == key` for a string literal `key` (the only comparisons the
program makes inside `in` on a list): equal only to the equal string. -/
def eqStr (v : PyVal) (key : String) : Bool :=
  match v with
  | .str s => s == key
  | _ => false

/-- Substring test on the underlying character lists (Python `key in s`). -/
def charsContain (needle : List Char) : List Char → Bool
  | [] => needle.isEmpty
  | c :: rest => needle.isPrefixOf (c :: rest) || charsContain needle rest

/-- Python membership `key in v` for a string literal `key`: key lookup on a
dict, element equality on a list, substring test on a string, `TypeError` on
non-containers. -/
def pyIn (key : String) (v : PyVal) : Except PyExc Bool :=
  match v with
  | .dict es => .ok (lookupDict es key).isSome
  | .list xs => .ok (xs.any (fun e => eqStr e key))
  | .str s => .ok (charsContain key.data s.data)
  | .int _ => .error (.typeError "argument of type 'int' is not iterable")
  | .pynone => .error (.typeError "argument of type 'NoneType' is not iterable")
  | .exc _ => .error (.typeError "argument of type 'Exception' is not iterable")

/-- Python subscript `v[key]` for a string literal `key`: dict lookup
(`KeyError` when absent), `TypeError` everywhere else. -/
def getItem (v : PyVal) (key : String) : Except PyExc PyVal :=
  match v with
  | .dict es =>
      match lookupDict es key with
      | some x => .ok x
      | Option.none => .error (.keyError key)
  | .list _ => .error (.typeError "list indices must be integers or slices, not str")
  | .str _ => .error (.typeError "string indices must be integers")
  | .int _ => .error (.typeError "'int' object is not subscriptable")
  | .pynone => .error (.typeError "'NoneType' object is not subscriptable")
  | .exc _ => .error (.typeError "'Exception' object is not subscriptable")

/-- Python subscript `v[0]` (used as `response['homeworks'][0]`). -/
def getItem0 (v : PyVal) : Except PyExc PyVal :=
  match v with
  | .list (x :: _) => .ok x
  | .list [] => .error (.indexError "list index out of range")
  | .str s =>
      match s.data with
      | c :: _ => .ok (.str (String.mk [c]))
      | [] => .error (.indexError "string index out of range")
  | .dict es =>
      match lookupDict es "0" with
      | some x => .ok x
      | Option.none => .error (.keyError "0")
  | .int _ => .error (.typeError "'int' object is not subscriptable")
  | .pynone => .error (.typeError "'NoneType' object is not subscriptable")
  | .exc _ => .error (.typeError "'Exception' object is not subscriptable")

/-- Python `v.get(key)` (dict method, default `None`); `AttributeError` on
anything that is not a dict. -/
def pyGet (v : PyVal) (key : String) : Except PyExc PyVal :=
  match v with
  | .dict es => .ok ((lookupDict es key).getD .pynone)
  | _ => .error (.attributeError ("object has no attribute 'get'"))

/-- Python truthiness (`if response['homeworks']:`). -/
def pyTruthy : PyVal → Bool
  | .str s => !s.isEmpty
  | .int n => n != 0
  | .pynone => false
  | .exc _ => true
  | .list xs => !xs.isEmpty
  | .dict es => !es.isEmpty

/-- `v.isDict` models `isinstance(v, dict)`. -/
def PyVal.isDict : PyVal → Bool
  | .dict _ => true
  | _ => false

/-- `v.isList` models `isinstance(v, list)`. -/
def PyVal.isList : PyVal → Bool
  | .list _ => true
  | _ => false

/-- A Python *sequence* among the modelled values (list or string); the spec
speaks of sequences where the code tests `isinstance(_, list)`. -/
def PyVal.isSequence : PyVal → Bool
  | .list _ => true
  | .str _ => true
  | _ => false

/- ## Constants of `homework.py` and `exceptions.py` -/

def RETRY_PERIOD : Nat := 600

def ENDPOINT : String := "https://practicum.yandex.ru/api/user_api/homework_statuses/"

def HOMEWORK_VERDICTS : List (String × String) :=
  [("approved", "Работа проверена: ревьюеру всё понравилось. Ура!"),
   ("reviewing", "Работа взята на проверку ревьюером."),
   ("rejected", "Работа проверена: у ревьюера есть замечания.")]

def ENVIRONMENT_VARIABLE_IS_MISSING : String := "Переменная окружения отсутствует."

/-- The success-log template of `exceptions.py`: note the *named* replacement
field `message`, while all three call sites in `homework.py` pass the
argument positionally (`.format(message)`). -/
def MESSAGE_SENT_SUCCESSFULLY : String := "Сообщение \"{message}\" успешно отправлено."

def HOMEWORS_LIST_IS_EMPTY : String := "Список домашних работ пуст."

def UNKNOWN_STATUS : String := "Неизвестный статус домашней работы."

def FAILED_SEND_MESSAGE : String := "Не удалось отправить сообщение пользователю."

/-- The spec's `EmptyListError`: the code raises builtin `IndexError` with the
message `exceptions.HOMEWORS_LIST_IS_EMPTY`; `main` handles it via
`except IndexError:`. -/
def EmptyListError : PyExc := .indexError HOMEWORS_LIST_IS_EMPTY

/-- Verdict lookup `HOMEWORK_VERDICTS[status]`. -/
def lookupVerdict : List (String × String) → String → Option String
  | [], _ => Option.none
  | (k, v) :: rest, key => if k = key then some v else lookupVerdict rest key

/-- Scanner for Python `template.format(arg)` with a single positional
argument: outside a field, `\x7b` opens a replacement field; inside one, the
collected field name is resolved at `\x7d` — the empty name and `0` take the
positional argument, another index raises `IndexError`, and a *named* field
looks into the (empty) keyword arguments and raises `KeyError(name)`.
Brace-escape doubling does not occur in the templates this program formats. -/
def formatOnePositional (arg : List Char) (inField : Bool) (acc : List Char) :
    List Char → Except PyExc (List Char)
  | [] =>
      if inField then .error (.valueError "Single bracket encountered in format string")
      else .ok []
  | c :: rest =>
      if inField then
        if c = '\x7d' then
          if acc.isEmpty || acc == ['0'] then
            match formatOnePositional arg false [] rest with
            | .error e => .error e
            | .ok out => .ok (arg ++ out)
          else if acc.all Char.isDigit then
            .error (.indexError "Replacement index out of range for positional args tuple")
          else
            .error (.keyError (String.mk acc))
        else
          formatOnePositional arg true (acc ++ [c]) rest
      else
        if c = '\x7b' then formatOnePositional arg true [] rest
        else
          match formatOnePositional arg false [] rest with
          | .error e => .error e
          | .ok out => .ok (c :: out)

/-- Python `template.format(arg)` with one positional argument, as called at
`homework.py` lines 212, 218 and 224. -/
def pyStrFormat (template : String) (arg : String) : Except PyExc String :=
  match formatOnePositional arg.data false [] template.data with
  | .error e => .error e
  | .ok out => .ok (String.mk out)

/- ## `check_tokens` and startup -/

/-- The `for token in token_list:` loop of `check_tokens`: returns `false` and
logs `logging.critical(exceptions.ENVIRONMENT_VARIABLE_IS_MISSING)` at the
first missing token; the second component collects the critical log lines. -/
def checkTokenList : List (Option String) → Bool × List String
  | [] => (true, [])
  | t :: ts =>
      match t with
      | Option.none => (false, [ENVIRONMENT_VARIABLE_IS_MISSING])
      | some _ => checkTokenList ts

/-- `check_tokens()` over the three environment variables
`PRACTICUM_TOKEN`, `TELEGRAM_TOKEN`, `TELEGRAM_CHAT_ID` (each `os.getenv`
result is `None` when absent).  Returns the bool result and the critical log
lines it emitted. -/
def check_tokens (practicumToken telegramToken telegramChatId : Option String) :
    Bool × List String :=
  checkTokenList [practicumToken, telegramToken, telegramChatId]

/- ## `get_api_answer` -/

/-- The outcome of `requests.get(url=ENDPOINT, headers=HEADERS,
params=payload)` together with the decodability of the body: the call either
raises an exception, or yields a response with an HTTP status code and a body
(`Option.none` body = `response.json()` raises a JSON decode error). -/
inductive RequestOutcome where
  | raises (e : PyExc)
  | responds (statusCode : Nat) (body : Option PyVal)
  deriving Repr

/-- `get_api_answer(timestamp)`.  The `try` block performs the request and, on
a non-OK status, logs and raises `EndpointError(status_code)`.  The `except`
ladder then *returns* (not raises) a `json.decoder.JSONDecodeError` or a
`requests.exceptions.ConnectionError`, and converts every other exception —
including the `EndpointError` just raised in the same `try` block — into a
raised `SystemError`.  The `else` block calls `response.json()`, whose decode
failure is *not* covered by the `except` clauses and propagates. -/
def get_api_answer (_timestamp : PyVal) (r : RequestOutcome) : Except PyExc PyVal :=
  -- payload = {'from_date': timestamp}; the response is an external input.
  let tryBlock : Except PyExc (Nat × Option PyVal) :=
    match r with
    | .raises e => .error e
    | .responds statusCode body =>
        if statusCode ≠ 200 then .error (.endpointError statusCode)
        else .ok (statusCode, body)
  match tryBlock with
  | .error e =>
      match e with
      | .jsonDecodeError m => .ok (.exc (.jsonDecodeError m))
      | .connectionError m => .ok (.exc (.connectionError m))
      | e => .error (.systemError ("Запрошенный эндпоинт не доступен: " ++ e.text ++ "."))
  | .ok (_, body) =>
      match body with
      | some v => .ok v
      | Option.none => .error (.jsonDecodeError "Expecting value: line 1 column 1 (char 0)")

/- ## `check_response` -/

/-- `check_response(response)`: `AccessError` when a `code` field is present,
`TypeError` when the response is not a dict or `homeworks` is not a list,
`KeyError` when `homeworks` is absent, `IndexError` (the spec's
`EmptyListError`) when the list is falsy, otherwise the first record. -/
def check_response (response : PyVal) : Except PyExc PyVal :=
  match pyIn "code" response with
  | .error e => .error e
  | .ok hasCode =>
      if hasCode then
        match getItem response "code" with
        | .error e => .error e
        | .ok codeVal =>
            .error (.accessError
              ("При обращении к сервису, произошла ошибка доступа. Код: " ++ pyStrOf codeVal ++ "."))
      else if !response.isDict then
        .error (.typeError "Некорректный формат ответа API. Данные приходят не в виде словаря.")
      else
        match pyIn "homeworks" response with
        | .error e => .error e
        | .ok hasHomeworks =>
            if !hasHomeworks then
              .error (.keyError
                "Структура данных не соответствует ожиданиям. Отсутствует ключ \"homeworks\".")
            else
              match getItem response "homeworks" with
              | .error e => .error e
              | .ok homeworks =>
                  if !homeworks.isList then
                    .error (.typeError
                      "Некорректный формат ответа API. Данные приходят не в виде списка.")
                  else if pyTruthy homeworks then
                    getItem0 homeworks
                  else
                    .error EmptyListError

/- ## `parse_status` -/

/-- `parse_status(homework)`: `homework.get('homework_name')` defaults to
`None`, and `None` (whether from a missing key or an explicit null value)
raises `KeyError`; a status that is not a key of `HOMEWORK_VERDICTS` raises
`StatusCodeError`; otherwise the message is built from the f-string
`'Изменился статус проверки работы "{homework_name}". {verdict}'`. -/
def parse_status (homework : PyVal) : Except PyExc String :=
  match pyGet homework "homework_name" with
  | .error e => .error e
  | .ok homework_name =>
      -- `if homework_name is None:` — `is None` coincides with `== None` here.
      if pyEq homework_name .pynone then
        .error (.keyError "Ключ \"homework_name\" отсутствует в словаре \"homework\".")
      else
        match pyGet homework "status" with
        | .error e => .error e
        | .ok homework_status =>
            match homework_status with
            | .str s =>
                match lookupVerdict HOMEWORK_VERDICTS s with
                | some verdict =>
                    .ok ("Изменился статус проверки работы \"" ++ pyStrOf homework_name
                          ++ "\". " ++ verdict)
                | Option.none =>
                    .error (.statusCodeError
                      ("Некорректный статус домашней работы: " ++ pyStrOf homework_status))
            | _ =>
                .error (.statusCodeError
                  ("Некорректный статус домашней работы: " ++ pyStrOf homework_status))

/- ## `send_message` -/

/-- The provider call `bot.send_message(chat_id=TELEGRAM_CHAT_ID,
text=message)`: on delivery failure it raises `telegram.error.TelegramError`. -/
def botSend (deliveryFails : Bool) : Except PyExc Unit :=
  if deliveryFails then .error (.telegramError "delivery failed") else .ok ()

/-- `send_message(bot, message)`: attempts delivery and catches
`telegram.error.TelegramError`, logging `exceptions.FAILED_SEND_MESSAGE`
instead of re-raising; it never raises. -/
def send_message (deliveryFails : Bool) (_message : String) : Except PyExc Unit :=
  match botSend deliveryFails with
  | .ok _ => .ok ()   -- logging.debug success line
  | .error e =>
      match e with
      | .telegramError _ => .ok ()   -- logging.error(FAILED_SEND_MESSAGE ...)
      | e => .error e

/- ## The poll loop of `main` -/

/-- The in-memory poll state of `main`: local variables `timestamp`
(initially `int(time.time())`) and `status_check` (initially `''`). -/
structure PollState where
  timestamp : PyVal
  status_check : PyVal
  deriving Repr

/-- Result of the `try:` block of one loop iteration: the state as mutated so
far, the messages passed to `send_message`, and the exception that escaped the
block, if any. -/
structure TryOut where
  state : PollState
  sent : List String
  raised : Option PyExc
  deriving Repr

/-- The `try:` block of the `while True:` loop, statement by statement:
`response = get_api_answer(timestamp)` then — *before any validation* —
`timestamp = response['current_date']`, then `check_response`, `parse_status`,
`status_check_now = homework['status']`, the change comparison, the optional
`send_message`, `status_check = status_check_now`, and then line 212
`logging.debug(exceptions.MESSAGE_SENT_SUCCESSFULLY.format(message))`, whose
argument expression raises `KeyError('message')` (named field, positional
argument) before `logging.info(homework)` can run. -/
def loopTryBlock (s : PollState) (r : RequestOutcome) (deliveryFails : Bool) : TryOut :=
  match get_api_answer s.timestamp r with
  | .error e => ⟨s, [], some e⟩
  | .ok response =>
      match getItem response "current_date" with
      | .error e => ⟨s, [], some e⟩
      | .ok currentDate =>
          let s1 : PollState := { s with timestamp := currentDate }
          match check_response response with
          | .error e => ⟨s1, [], some e⟩
          | .ok homework =>
              match parse_status homework with
              | .error e => ⟨s1, [], some e⟩
              | .ok message =>
                  match getItem homework "status" with
                  | .error e => ⟨s1, [], some e⟩
                  | .ok status_check_now =>
                      if !pyEq status_check_now s1.status_check then
                        match send_message deliveryFails message with
                        | .error e => ⟨s1, [message], some e⟩
                        | .ok _ =>
                            let s2 : PollState := { s1 with status_check := status_check_now }
                            match pyStrFormat MESSAGE_SENT_SUCCESSFULLY message with
                            | .error e => ⟨s2, [message], some e⟩
                            | .ok _ => ⟨s2, [message], none⟩
                      else
                        let s2 : PollState := { s1 with status_check := status_check_now }
                        match pyStrFormat MESSAGE_SENT_SUCCESSFULLY message with
                        | .error e => ⟨s2, [], some e⟩
                        | .ok _ => ⟨s2, [], none⟩

/-- `e` is an instance of builtin `IndexError` (the class `main` catches
first). -/
def PyExc.isIndexError : PyExc → Bool
  | .indexError _ => true
  | _ => false

/-- `e` is an instance of Python's `Exception`: every exception class raised
by the loop body (builtins, the `exceptions.py` classes and the library
errors) derives from `Exception`. -/
def PyExc.isException : PyExc → Bool := fun _ => true

/-- Result of one full iteration of the `while True:` loop, `except` and
`finally` clauses included. -/
structure IterResult where
  state : PollState
  sent : List String
  sleptSeconds : Nat
  raisedInTry : Option PyExc
  propagated : Option PyExc
  deriving Repr

/-- One iteration of `while True:`: the `try:` block, then
`except IndexError:` (fixed unchanged-status notification, then line 218's
`MESSAGE_SENT_SUCCESSFULLY.format(message)` which raises `KeyError('message')`
inside the handler), then `except Exception as error:` (generic failure
notification built from the error text, then line 224's identical raising
format call), then `finally: time.sleep(RETRY_PERIOD)`.  `propagated` is the
exception escaping the iteration after the `finally` sleep — it terminates
the loop. -/
def runIteration (s : PollState) (r : RequestOutcome) (deliveryFails : Bool) : IterResult :=
  let t := loopTryBlock s r deliveryFails
  match t.raised with
  | none => ⟨t.state, t.sent, RETRY_PERIOD, none, none⟩
  | some e =>
      if e.isIndexError then
        let message := "Статус домашней работы не изменился"
        match send_message deliveryFails message with
        | .error e2 => ⟨t.state, t.sent ++ [message], RETRY_PERIOD, some e, some e2⟩
        | .ok _ =>
            match pyStrFormat MESSAGE_SENT_SUCCESSFULLY message with
            | .error e2 => ⟨t.state, t.sent ++ [message], RETRY_PERIOD, some e, some e2⟩
            | .ok _ => ⟨t.state, t.sent ++ [message], RETRY_PERIOD, some e, none⟩
      else if e.isException then
        let message := "Сбой в работе программы: " ++ e.text
        match send_message deliveryFails message with
        | .error e2 => ⟨t.state, t.sent ++ [message], RETRY_PERIOD, some e, some e2⟩
        | .ok _ =>
            match pyStrFormat MESSAGE_SENT_SUCCESSFULLY message with
            | .error e2 => ⟨t.state, t.sent ++ [message], RETRY_PERIOD, some e, some e2⟩
            | .ok _ => ⟨t.state, t.sent ++ [message], RETRY_PERIOD, some e, none⟩
      else
        ⟨t.state, t.sent, RETRY_PERIOD, some e, some e⟩

/-- Iterations of the loop, driven by one external input per iteration; an
exception propagating out of an iteration terminates the `while True:` loop
(and the process), so the remaining inputs are never consumed. -/
def runLoop (s : PollState) : List (RequestOutcome × Bool) → PollState × Option PyExc
  | [] => (s, none)
  | (r, d) :: rest =>
      let res := runIteration s r d
      match res.propagated with
      | some e => (res.state, some e)
      | none => runLoop res.state rest

/-- What the process does before the `while True:` loop. -/
inductive StartupResult where
  | enterLoop (initialState : PollState)
  | exited (exitCode : Nat) (criticalLogs : List String)
  deriving Repr

/-- The startup part of `main()`: build the bot, take the clock, initialise
`status_check = ''`, and gate on `check_tokens()`: when it fails, `main` logs
a second critical line and calls `sys.exit()` — the no-argument form, which
terminates the process with exit status 0. -/
def main_startup (practicumToken telegramToken telegramChatId : Option String)
    (startClock : Int) : StartupResult :=
  let s0 : PollState := ⟨.int startClock, .str ""⟩
  match check_tokens practicumToken telegramToken telegramChatId with
  | (true, _) => .enterLoop s0
  | (false, logs) =>
      .exited 0 (logs ++ ["Ошибка. Отсутствует одна или несколько переменных окружения."])

/-- `send_message` never raises: the only provider failure,
`telegram.error.TelegramError`, is caught and logged inside it. -/
theorem send_message_ok (d : Bool) (m : String) : send_message d m = Except.ok () := by
  cases d <;> rfl

/-- C1 counterexample. The spec claims `get_api_answer` fails with `EndpointError` on a
non-success HTTP status: in the code the `raise exceptions.EndpointError(...)`
sits inside the same `try` block as the request, so the function's own
`except Exception` clause catches it and raises `SystemError` instead; and a
network `ConnectionError` is returned as a value, not raised.  Shown false at
status 404 and at a concrete connection failure. -/
theorem C1_counterexample :
    (¬ ∃ code, get_api_answer (.int 0) (.responds 404 (some (.dict []))) =
        .error (.endpointError code)) ∧
    get_api_answer (.int 0) (.raises (.connectionError "conn refused")) =
      .ok (.exc (.connectionError "conn refused")) := by
  constructor
  · rintro ⟨code, h⟩
    simp [get_api_answer, PyExc.text, pyStrOf] at h
  · rfl

/-- C1 (amended). For every call of `get_api_answer`: a non-success HTTP
status raises `SystemError` (the internally raised `EndpointError` is caught
by the function's own generic `except Exception` handler and converted); a
network `ConnectionError`, and a JSON decode error raised by the request
itself, are caught and *returned* as values rather than raised; a malformed
(undecodable) body makes `response.json()` raise the decode error out of the
call (the `else` block is outside the `except` clauses); a well-formed
200 response returns the decoded body; any other failure during the request
is re-raised as `SystemError`. -/
theorem C1_get_api_answer_behavior (ts : PyVal) :
    (∀ (st : Nat) (body : Option PyVal), st ≠ 200 →
      ∃ m, get_api_answer ts (.responds st body) = .error (.systemError m)) ∧
    (∀ m, get_api_answer ts (.raises (.connectionError m)) =
      .ok (.exc (.connectionError m))) ∧
    (∀ m, get_api_answer ts (.raises (.jsonDecodeError m)) =
      .ok (.exc (.jsonDecodeError m))) ∧
    (∀ v, get_api_answer ts (.responds 200 (some v)) = .ok v) ∧
    (∃ m, get_api_answer ts (.responds 200 Option.none) = .error (.jsonDecodeError m)) ∧
    (∀ e : PyExc, (∀ m, e ≠ .connectionError m) → (∀ m, e ≠ .jsonDecodeError m) →
      ∃ m, get_api_answer ts (.raises e) = .error (.systemError m)) := by
  refine ⟨?_, fun m => rfl, fun m => rfl, fun v => rfl, ⟨_, rfl⟩, ?_⟩
  · intro st body hst
    refine ⟨"Запрошенный эндпоинт не доступен: " ++ (PyExc.endpointError st).text ++ ".", ?_⟩
    simp [get_api_answer, hst]
  · intro e hconn hjson
    cases e with
    | connectionError m => exact absurd rfl (hconn m)
    | jsonDecodeError m => exact absurd rfl (hjson m)
    | _ => exact ⟨_, rfl⟩

/-- C1 amended-claim witness at concrete inputs. -/
theorem C1_witness :
    (∃ m, get_api_answer (.int 0) (.responds 503 (some (.dict []))) =
      .error (.systemError m)) ∧
    (∃ m, get_api_answer (.int 0) (.raises (.keyError "boom")) =
      .error (.systemError m)) :=
  ⟨(C1_get_api_answer_behavior (.int 0)).1 503 (some (.dict [])) (by decide),
   (C1_get_api_answer_behavior (.int 0)).2.2.2.2.2 (.keyError "boom")
     (fun m h => by cases h) (fun m h => by cases h)⟩

/-- C8 counterexample. The spec claims a missing environment variable causes
a "non-zero-equivalent" early exit: `main` calls `sys.exit()` with no
argument, which terminates the process with exit status 0 — the same status
as a normal termination.  Shown at a concrete environment missing the API
token. -/
theorem C8_counterexample :
    ¬ ∃ (code : Nat) (logs : List String),
      main_startup Option.none (some "bot-token") (some "chat-id") 0 =
        .exited code logs ∧ code ≠ 0 := by
  rintro ⟨code, logs, heq, hne⟩
  have h0 : main_startup Option.none (some "bot-token") (some "chat-id") 0 =
      .exited 0 ([ENVIRONMENT_VARIABLE_IS_MISSING] ++
        ["Ошибка. Отсутствует одна или несколько переменных окружения."]) := rfl
  rw [h0] at heq
  injection heq with h1 h2
  exact hne h1.symm

/-- C8 (amended). If any of the three required environment variables is
absent at startup, the process logs the critical
`ENVIRONMENT_VARIABLE_IS_MISSING` message and terminates before entering the
poll loop — but via the no-argument `sys.exit()`, i.e. with exit status 0
(zero-equivalent), not a non-zero status. -/
theorem C8_missing_token_exit (p t c : Option String) (clk : Int)
    (h : p = Option.none ∨ t = Option.none ∨ c = Option.none) :
    ∃ logs, main_startup p t c clk = .exited 0 logs ∧
      ENVIRONMENT_VARIABLE_IS_MISSING ∈ logs := by
  cases p with
  | none => exact ⟨_, rfl, by simp [check_tokens, checkTokenList]⟩
  | some a =>
    cases t with
    | none => exact ⟨_, rfl, by simp [check_tokens, checkTokenList]⟩
    | some b =>
      cases c with
      | none => exact ⟨_, rfl, by simp [check_tokens, checkTokenList]⟩
      | some cc => simp at h

/-- C8 amended-claim witness: missing chat id at a concrete environment. -/
theorem C8_witness :
    ∃ logs, main_startup (some "api") (some "bot") Option.none 99 = .exited 0 logs ∧
      ENVIRONMENT_VARIABLE_IS_MISSING ∈ logs :=
  C8_missing_token_exit (some "api") (some "bot") Option.none 99 (Or.inr (Or.inr rfl))

/-- C3. `check_response` on every input: `AccessError` when the response
carries a `code` field; a `TypeError`-class error when the response is not a
mapping, and when the `homeworks` value is not a sequence; a `KeyError`-class
error when the `homeworks` key is absent (and no `code` field short-circuits
first); `EmptyListError` when the homeworks sequence is empty; and the first
record of a non-empty homeworks list on a well-formed response. -/
theorem C3_check_response_cases :
    (∀ (es : List (String × PyVal)) (v : PyVal), lookupDict es "code" = some v →
      ∃ m, check_response (.dict es) = .error (.accessError m)) ∧
    (∀ v : PyVal, v.isDict = false →
      ∃ m, check_response v = .error (.typeError m)) ∧
    (∀ es : List (String × PyVal), lookupDict es "code" = Option.none →
      lookupDict es "homeworks" = Option.none →
      ∃ m, check_response (.dict es) = .error (.keyError m)) ∧
    (∀ (es : List (String × PyVal)) (hv : PyVal), lookupDict es "code" = Option.none →
      lookupDict es "homeworks" = some hv → hv.isSequence = false →
      ∃ m, check_response (.dict es) = .error (.typeError m)) ∧
    (∀ es : List (String × PyVal), lookupDict es "code" = Option.none →
      lookupDict es "homeworks" = some (.list []) →
      check_response (.dict es) = .error EmptyListError) ∧
    (∀ (es : List (String × PyVal)) (hd : PyVal) (tl : List PyVal),
      lookupDict es "code" = Option.none →
      lookupDict es "homeworks" = some (.list (hd :: tl)) →
      check_response (.dict es) = .ok hd) := by
  refine ⟨?_, ?_, ?_, ?_, ?_, ?_⟩
  · intro es v h
    exact ⟨"При обращении к сервису, произошла ошибка доступа. Код: " ++ pyStrOf v ++ ".",
      by simp [check_response, pyIn, getItem, h]⟩
  · intro v hv
    cases v with
    | str s =>
        cases hc : charsContain "code".data s.data with
        | true =>
            exact ⟨"string indices must be integers",
              by simp [check_response, pyIn, getItem, hc]⟩
        | false =>
            exact ⟨"Некорректный формат ответа API. Данные приходят не в виде словаря.",
              by simp [check_response, pyIn, getItem, hc, PyVal.isDict]⟩
    | int n => exact ⟨_, rfl⟩
    | pynone => exact ⟨_, rfl⟩
    | exc e => exact ⟨_, rfl⟩
    | list xs =>
        cases hc : xs.any (fun e => eqStr e "code") with
        | true =>
            exact ⟨"list indices must be integers or slices, not str",
              by simp [check_response, pyIn, getItem, hc]⟩
        | false =>
            exact ⟨"Некорректный формат ответа API. Данные приходят не в виде словаря.",
              by simp [check_response, pyIn, getItem, hc, PyVal.isDict]⟩
    | dict es => simp [PyVal.isDict] at hv
  · intro es h1 h2
    exact ⟨"Структура данных не соответствует ожиданиям. Отсутствует ключ \"homeworks\".",
      by simp [check_response, pyIn, getItem, h1, h2, PyVal.isDict]⟩
  · intro es hv h1 h2 hseq
    have hlist : hv.isList = false := by
      cases hv <;> simp_all [PyVal.isSequence, PyVal.isList]
    exact ⟨"Некорректный формат ответа API. Данные приходят не в виде списка.",
      by simp [check_response, pyIn, getItem, h1, h2, PyVal.isDict, hlist]⟩
  · intro es h1 h2
    simp [check_response, pyIn, getItem, h1, h2, PyVal.isDict, PyVal.isList, pyTruthy,
      EmptyListError]
  · intro es hd tl h1 h2
    simp [check_response, pyIn, getItem, h1, h2, PyVal.isDict, PyVal.isList, pyTruthy, getItem0]

/-- C3 witness at concrete inputs: an error-code response, a non-mapping
response, a response without `homeworks`, a non-sequence `homeworks`, an empty
list, and a well-formed response. -/
theorem C3_witness :
    (∃ m, check_response (.dict [("code", .str "not_found")]) = .error (.accessError m)) ∧
    (∃ m, check_response (.int 7) = .error (.typeError m)) ∧
    (∃ m, check_response (.dict [("current_date", .int 5)]) = .error (.keyError m)) ∧
    (∃ m, check_response (.dict [("homeworks", .int 3)]) = .error (.typeError m)) ∧
    check_response (.dict [("homeworks", .list [])]) = .error EmptyListError ∧
    check_response (.dict [("homeworks", .list [.str "first", .str "second"])]) =
      .ok (.str "first") :=
  ⟨C3_check_response_cases.1 [("code", .str "not_found")] (.str "not_found") rfl,
   C3_check_response_cases.2.1 (.int 7) rfl,
   C3_check_response_cases.2.2.1 [("current_date", .int 5)] rfl rfl,
   C3_check_response_cases.2.2.2.1 [("homeworks", .int 3)] (.int 3) rfl rfl rfl,
   C3_check_response_cases.2.2.2.2.1 [("homeworks", .list [])] rfl rfl,
   C3_check_response_cases.2.2.2.2.2 [("homeworks", .list [.str "first", .str "second"])]
     (.str "first") [.str "second"] rfl rfl⟩

/-- C10. `parse_status` fetches the name with the defaulting `dict.get`, so a
record whose `homework_name` key is bound to `None` is treated exactly like a
record missing the key: both raise the same `KeyError`. -/
theorem C10_null_name_like_missing :
    (∀ es : List (String × PyVal), lookupDict es "homework_name" = some PyVal.pynone →
      parse_status (.dict es) =
        .error (.keyError "Ключ \"homework_name\" отсутствует в словаре \"homework\".")) ∧
    (∀ es : List (String × PyVal), lookupDict es "homework_name" = Option.none →
      parse_status (.dict es) =
        .error (.keyError "Ключ \"homework_name\" отсутствует в словаре \"homework\".")) := by
  constructor
  · intro es h1
    simp [parse_status, pyGet, h1, pyEq]
  · intro es h1
    simp [parse_status, pyGet, h1, pyEq]

/-- C10 witness: a record with `homework_name: null` and a record without the
key yield the identical `KeyError`. -/
theorem C10_witness :
    parse_status (.dict [("homework_name", .pynone), ("status", .str "approved")]) =
      .error (.keyError "Ключ \"homework_name\" отсутствует в словаре \"homework\".") ∧
    parse_status (.dict [("status", .str "approved")]) =
      .error (.keyError "Ключ \"homework_name\" отсутствует в словаре \"homework\".") :=
  ⟨C10_null_name_like_missing.1 [("homework_name", .pynone), ("status", .str "approved")] rfl,
   C10_null_name_like_missing.2 [("status", .str "approved")] rfl⟩

/-- `MESSAGE_SENT_SUCCESSFULLY.format(message)` raises `KeyError('message')`
for every argument: the template's replacement field is the named `message`,
and a positional argument does not bind named fields. -/
theorem format_message_sent_raises (m : String) :
    pyStrFormat MESSAGE_SENT_SUCCESSFULLY m = .error (.keyError "message") := rfl

/-- The `except` clauses do not touch the loop state: `runIteration` ends in
the state `loopTryBlock` left behind. -/
theorem runIteration_state (s : PollState) (r : RequestOutcome) (d : Bool) :
    (runIteration s r d).state = (loopTryBlock s r d).state := by
  cases hr : (loopTryBlock s r d).raised with
  | none => simp [runIteration, hr]
  | some e =>
      by_cases he : e.isIndexError <;>
        simp [runIteration, hr, he, send_message_ok, PyExc.isException,
          format_message_sent_raises]

/-- What one iteration does when the `try:` block raises an `IndexError`: the
handler sends the fixed unchanged-status message, and then its own
success-logging line 218 raises `KeyError('message')`, which propagates. -/
theorem runIteration_afterIndexError (s : PollState) (r : RequestOutcome) (d : Bool)
    (e : PyExc) (h : (loopTryBlock s r d).raised = some e)
    (hi : e.isIndexError = true) :
    runIteration s r d = ⟨(loopTryBlock s r d).state,
      (loopTryBlock s r d).sent ++ ["Статус домашней работы не изменился"],
      RETRY_PERIOD, some e, some (.keyError "message")⟩ := by
  simp [runIteration, h, hi, send_message_ok, format_message_sent_raises]

/-- What one iteration does when the `try:` block raises anything that is not
an `IndexError`: the generic handler sends the failure notification built
from the error text, and then its own success-logging line 224 raises
`KeyError('message')`, which propagates. -/
theorem runIteration_afterOtherError (s : PollState) (r : RequestOutcome) (d : Bool)
    (e : PyExc) (h : (loopTryBlock s r d).raised = some e)
    (hi : e.isIndexError = false) :
    runIteration s r d = ⟨(loopTryBlock s r d).state,
      (loopTryBlock s r d).sent ++ ["Сбой в работе программы: " ++ e.text],
      RETRY_PERIOD, some e, some (.keyError "message")⟩ := by
  simp [runIteration, h, hi, PyExc.isException, send_message_ok, format_message_sent_raises]

/-- A successful `parse_status` forces the record to be a dict whose `status`
key holds one of the three known status strings. -/
theorem parse_status_ok_shape (hw : PyVal) (msg : String)
    (h : parse_status hw = .ok msg) :
    ∃ (es : List (String × PyVal)) (st verdict : String),
      hw = .dict es ∧ lookupDict es "status" = some (.str st) ∧
      lookupVerdict HOMEWORK_VERDICTS st = some verdict := by
  cases hw with
  | str s => simp [parse_status, pyGet] at h
  | int n => simp [parse_status, pyGet] at h
  | pynone => simp [parse_status, pyGet] at h
  | exc e => simp [parse_status, pyGet] at h
  | list xs => simp [parse_status, pyGet] at h
  | dict es =>
      refine ⟨es, ?_⟩
      simp only [parse_status, pyGet] at h
      split at h
      · cases h
      · split at h
        · next st' heq =>
            split at h
            · next verdict' hlv =>
                refine ⟨st', verdict', rfl, ?_, hlv⟩
                cases hq : lookupDict es "status" with
                | none => rw [hq] at heq; cases heq
                | some w => rw [hq] at heq; simp at heq; rw [heq]
            · cases h
        · cases h

/-- No path through the `try:` block completes without raising: the error
paths raise by construction, and every success path ends at line 212, whose
`MESSAGE_SENT_SUCCESSFULLY.format(message)` raises `KeyError('message')`. -/
theorem loopTryBlock_always_raises (s : PollState) (r : RequestOutcome) (d : Bool) :
    (loopTryBlock s r d).raised ≠ none := by
  cases h1 : get_api_answer s.timestamp r with
  | error e => simp [loopTryBlock, h1]
  | ok resp =>
    cases h2 : getItem resp "current_date" with
    | error e => simp [loopTryBlock, h1, h2]
    | ok cd =>
      cases h3 : check_response resp with
      | error e => simp [loopTryBlock, h1, h2, h3]
      | ok hw =>
        cases h4 : parse_status hw with
        | error e => simp [loopTryBlock, h1, h2, h3, h4]
        | ok msg =>
          cases h5 : getItem hw "status" with
          | error e => simp [loopTryBlock, h1, h2, h3, h4, h5]
          | ok now =>
            cases h6 : pyEq now s.status_check <;>
              simp [loopTryBlock, h1, h2, h3, h4, h5, h6, send_message_ok,
                format_message_sent_raises]

/-- The `try:` block on a poll whose pipeline succeeds and whose fresh status
differs from the stored one: the state is updated, the rendered status
message is sent, and line 212 then raises `KeyError('message')`. -/
theorem loopTryBlock_changed_status (s : PollState) (r : RequestOutcome) (d : Bool)
    (resp cd hw now : PyVal) (msg : String)
    (h1 : get_api_answer s.timestamp r = .ok resp)
    (h2 : getItem resp "current_date" = .ok cd)
    (h3 : check_response resp = .ok hw)
    (h4 : parse_status hw = .ok msg)
    (h5 : getItem hw "status" = .ok now)
    (h6 : pyEq now s.status_check = false) :
    loopTryBlock s r d = ⟨⟨cd, now⟩, [msg], some (.keyError "message")⟩ := by
  simp [loopTryBlock, h1, h2, h3, h4, h5, h6, send_message_ok, format_message_sent_raises]

/-- C2 counterexample. The spec claims the empty-homeworks-list error leaves
the poll state untouched, but `timestamp = response['current_date']` runs
*before* `check_response`: at a concrete state with `timestamp = 0` and an
empty-list response carrying `current_date = 100`, the iteration sends the
fixed message and leaves `last_status` alone, yet `last_timestamp` has become
100. -/
theorem C2_counterexample :
    (runIteration ⟨.int 0, .str ""⟩
      (.responds 200 (some (.dict [("homeworks", .list []), ("current_date", .int 100)])))
      false).state.timestamp = .int 100 ∧
    PyVal.int 100 ≠ PyVal.int 0 ∧
    (runIteration ⟨.int 0, .str ""⟩
      (.responds 200 (some (.dict [("homeworks", .list []), ("current_date", .int 100)])))
      false).sent = ["Статус домашней работы не изменился"] ∧
    (runIteration ⟨.int 0, .str ""⟩
      (.responds 200 (some (.dict [("homeworks", .list []), ("current_date", .int 100)])))
      false).state.status_check = .str "" :=
  ⟨rfl, by simp, rfl, rfl⟩

/-- C2 (amended). When an iteration hits the empty-homeworks-list error
(`IndexError`, the spec's `EmptyListError`), the handler notifies the fixed
"status unchanged" message and `last_status` is not altered — but
`last_timestamp` has already been advanced to the response's `current_date`,
because that assignment precedes validation in the `try:` block; and the
handler's own success-logging line 218 then raises `KeyError('message')`
(named format field, positional argument), which propagates after the
`finally` sleep and terminates the loop. -/
theorem C2_empty_list_iteration (s : PollState) (es : List (String × PyVal)) (cd : PyVal)
    (d : Bool)
    (h1 : lookupDict es "code" = Option.none)
    (h2 : lookupDict es "current_date" = some cd)
    (h3 : lookupDict es "homeworks" = some (.list [])) :
    runIteration s (.responds 200 (some (.dict es))) d =
      ⟨⟨cd, s.status_check⟩, ["Статус домашней работы не изменился"], RETRY_PERIOD,
        some EmptyListError, some (.keyError "message")⟩ := by
  have hresp : get_api_answer s.timestamp (.responds 200 (some (.dict es))) =
      .ok (.dict es) := rfl
  have hcd : getItem (.dict es) "current_date" = .ok cd := by simp [getItem, h2]
  have hcr : check_response (.dict es) = .error EmptyListError := by
    simp [check_response, pyIn, getItem, h1, h3, PyVal.isDict, PyVal.isList, pyTruthy,
      EmptyListError]
  have hblock : loopTryBlock s (.responds 200 (some (.dict es))) d =
      ⟨⟨cd, s.status_check⟩, [], some EmptyListError⟩ := by
    simp [loopTryBlock, hresp, hcd, hcr]
  rw [runIteration_afterIndexError s (.responds 200 (some (.dict es))) d EmptyListError
    (by rw [hblock]) rfl, hblock]
  simp

/-- C2 amended-claim witness at a concrete state and response. -/
theorem C2_witness :
    runIteration ⟨.int 7, .str "approved"⟩
      (.responds 200 (some (.dict [("homeworks", .list []), ("current_date", .int 50)])))
      true =
      ⟨⟨.int 50, .str "approved"⟩, ["Статус домашней работы не изменился"], RETRY_PERIOD,
        some EmptyListError, some (.keyError "message")⟩ :=
  C2_empty_list_iteration ⟨.int 7, .str "approved"⟩
    [("homeworks", .list []), ("current_date", .int 50)] (.int 50) true rfl rfl rfl

/-- C4 counterexample. The spec claims `last_timestamp` only advances — but
the code assigns it blindly from the response's `current_date`: starting from
the clock value 10 (`int(time.time())`), a response carrying
`current_date = 3` drives `last_timestamp` from 10 down to 3 within the very
first iteration. -/
theorem C4_counterexample :
    (runIteration ⟨.int 10, .str ""⟩
      (.responds 200 (some (.dict [("homeworks", .list []), ("current_date", .int 3)])))
      false).state.timestamp = .int 3 ∧
    (3 : Int) < 10 :=
  ⟨rfl, by norm_num⟩

/-- C4 (amended). In every iteration `last_timestamp` either stays unchanged
or is assigned the `current_date` value subscripted out of that iteration's
successfully fetched response — even when the iteration fails later; nothing
compares this value with the previous timestamp, so it can decrease, and
monotonicity would hold only if the API supplied non-decreasing
`current_date` values.  (Moreover the real loop terminates after a single
iteration — see the success-logging `KeyError` — so no multi-iteration
evolution exists at all.) -/
theorem C4_timestamp_update (s : PollState) (r : RequestOutcome) (d : Bool) :
    (runIteration s r d).state.timestamp = s.timestamp ∨
    ∃ resp cd, get_api_answer s.timestamp r = .ok resp ∧
      getItem resp "current_date" = .ok cd ∧
      (runIteration s r d).state.timestamp = cd := by
  rw [runIteration_state]
  cases h1 : get_api_answer s.timestamp r with
  | error e => left; simp [loopTryBlock, h1]
  | ok resp =>
    cases h2 : getItem resp "current_date" with
    | error e => left; simp [loopTryBlock, h1, h2]
    | ok cd =>
      right
      refine ⟨resp, cd, rfl, h2, ?_⟩
      cases h3 : check_response resp with
      | error e => simp [loopTryBlock, h1, h2, h3]
      | ok hw =>
        cases h4 : parse_status hw with
        | error e => simp [loopTryBlock, h1, h2, h3, h4]
        | ok msg =>
          cases h5 : getItem hw "status" with
          | error e => simp [loopTryBlock, h1, h2, h3, h4, h5]
          | ok now =>
            cases h6 : pyEq now s.status_check <;>
              simp [loopTryBlock, h1, h2, h3, h4, h5, h6, send_message_ok,
                format_message_sent_raises]

/-- C5 (code bug). The claim — notify only on a status change, and no
notification on a second identical successful poll — matches the intent of
lines 208–211 and the spec, but the code breaks it: at a concrete state whose
`last_status` is already `approved`, a poll returning the same `approved`
status skips the status notification, then line 212's
`MESSAGE_SENT_SUCCESSFULLY.format(message)` raises `KeyError('message')` and
the generic handler *does* send a notification (the spurious failure text),
after which its own line 224 raises the same `KeyError` and the loop dies —
so no second poll ever happens. -/
theorem C5_unchanged_status_still_notifies :
    (runIteration ⟨.int 0, .str "approved"⟩
      (.responds 200 (some (.dict
        [("homeworks", .list [.dict [("homework_name", .str "hw1"),
          ("status", .str "approved")]]), ("current_date", .int 1000)])))
      false).sent = ["Сбой в работе программы: 'message'"] ∧
    (runIteration ⟨.int 0, .str "approved"⟩
      (.responds 200 (some (.dict
        [("homeworks", .list [.dict [("homework_name", .str "hw1"),
          ("status", .str "approved")]]), ("current_date", .int 1000)])))
      false).state.status_check = .str "approved" ∧
    (runIteration ⟨.int 0, .str "approved"⟩
      (.responds 200 (some (.dict
        [("homeworks", .list [.dict [("homework_name", .str "hw1"),
          ("status", .str "approved")]]), ("current_date", .int 1000)])))
      false).propagated = some (.keyError "message") :=
  ⟨rfl, rfl, rfl⟩

/-- C7 (code bug). The claim — the loop never terminates because of an error
— matches the whole `try/except/finally` design and the spec, but the code
breaks it: on *every* input the iteration ends with `KeyError('message')`
raised by `MESSAGE_SENT_SUCCESSFULLY.format(message)` inside a handler
(line 218 or 224), which nothing catches; it propagates after the `finally`
sleep, so the loop terminates after one iteration and never consumes a second
input. -/
theorem C7_loop_crashes (s : PollState) (r : RequestOutcome) (d : Bool) :
    (runIteration s r d).propagated = some (.keyError "message") ∧
    (∀ (r2 : RequestOutcome) (d2 : Bool),
      runLoop s [(r, d), (r2, d2)] =
        ((runIteration s r d).state, some (.keyError "message"))) := by
  have hprop : (runIteration s r d).propagated = some (.keyError "message") := by
    cases hr : (loopTryBlock s r d).raised with
    | none => exact absurd hr (loopTryBlock_always_raises s r d)
    | some e =>
        cases hi : e.isIndexError with
        | true => rw [runIteration_afterIndexError s r d e hr hi]
        | false => rw [runIteration_afterOtherError s r d e hr hi]
  exact ⟨hprop, fun r2 d2 => by simp [runLoop, hprop]⟩

/-- C9. `status_check` starts out as the empty string, and every status that
survives `parse_status` is one of the three known non-empty strings; so on an
iteration whose `try:` block reaches the status comparison (fetch, timestamp
read, validation, rendering and status subscripting all succeed), starting
from the initial state the comparison always registers a change and the
rendered status notification is sent — whatever the homework's status is.
(Line 212 then raises `KeyError('message')`, but the notification has already
gone out by then.) -/
theorem C9_first_iteration_notifies (s : PollState) (r : RequestOutcome) (d : Bool)
    (resp cd hw now : PyVal) (msg : String)
    (hinit : s.status_check = .str "")
    (h1 : get_api_answer s.timestamp r = .ok resp)
    (h2 : getItem resp "current_date" = .ok cd)
    (h3 : check_response resp = .ok hw)
    (h4 : parse_status hw = .ok msg)
    (h5 : getItem hw "status" = .ok now) :
    msg ∈ (runIteration s r d).sent ∧ (runIteration s r d).sent ≠ [] := by
  obtain ⟨es, st, verdict, rfl, hls, hlv⟩ := parse_status_ok_shape hw msg h4
  have h5c : getItem (PyVal.dict es) "status" = .ok (.str st) := by simp [getItem, hls]
  have hnow : now = .str st := by
    have heq := h5c.symm.trans h5
    injection heq with heq2
    exact heq2.symm
  subst hnow
  have hne : st ≠ "" := by
    intro he
    subst he
    rw [show lookupVerdict HOMEWORK_VERDICTS "" = Option.none from rfl] at hlv
    cases hlv
  have h6 : pyEq (.str st) s.status_check = false := by
    rw [hinit, show pyEq (.str st) (.str "") = (st == "") from rfl]
    exact beq_eq_false_iff_ne.mpr hne
  have hblock := loopTryBlock_changed_status s r d resp cd (.dict es) (.str st) msg
    h1 h2 h3 h4 h5 h6
  rw [runIteration_afterOtherError s r d (.keyError "message") (by rw [hblock]) rfl, hblock]
  simp

/-- C9 witness: from the initial state, a concrete poll with status
`reviewing` that reaches the comparison sends the rendered notification. -/
theorem C9_witness :
    ("Изменился статус проверки работы \"" ++ "hw1" ++ "\". " ++
        "Работа взята на проверку ревьюером.") ∈
      (runIteration ⟨.int 0, .str ""⟩
        (.responds 200 (some (.dict
          [("homeworks", .list [.dict [("homework_name", .str "hw1"),
            ("status", .str "reviewing")]]), ("current_date", .int 77)])))
        false).sent ∧
    (runIteration ⟨.int 0, .str ""⟩
      (.responds 200 (some (.dict
        [("homeworks", .list [.dict [("homework_name", .str "hw1"),
          ("status", .str "reviewing")]]), ("current_date", .int 77)])))
      false).sent ≠ [] :=
  C9_first_iteration_notifies ⟨.int 0, .str ""⟩
    (.responds 200 (some (.dict
      [("homeworks", .list [.dict [("homework_name", .str "hw1"),
        ("status", .str "reviewing")]]), ("current_date", .int 77)])))
    false
    (.dict [("homeworks", .list [.dict [("homework_name", .str "hw1"),
      ("status", .str "reviewing")]]), ("current_date", .int 77)])
    (.int 77)
    (.dict [("homework_name", .str "hw1"), ("status", .str "reviewing")])
    (.str "reviewing")
    ("Изменился статус проверки работы \"" ++ "hw1" ++ "\". " ++
      "Работа взята на проверку ревьюером.")
    rfl rfl rfl rfl rfl rfl
